import Mathlib

/-!
Verification of the Scarlett 18i6 mixer control script (`src/scarlettmixer.py`).

The script talks to the device through USB control transfers.  We embed the
pure part: every operation is modelled as a function returning the list of
control requests it emits (`ctrl_send` calls), in order.  Decibel arguments
are modelled as rationals (the script only ever uses values where binary
floating point is exact), channel/bus indices as integers (Python ints may be
negative), payload bytes as naturals.

The script runs under Python 2, where a comparison between a number and a
list never fails: any number compares smaller than any list.  The wrappers
`att_out_master` / `att_out_monitor` / `att_out_phones` accidentally pass an
already-converted byte list back into `att_to_hex`, so this cross-type
comparison semantics is observable.  `PyVal` models the two kinds of values
that ever reach `att_to_hex`.
-/

/-- Python values that flow into `att_to_hex`: a number or a byte list. -/
inductive PyVal where
  | num (q : ℚ)
  | bytes (l : List ℕ)
deriving DecidableEq

/-- Python 2 comparison `v <= c` for a numeric constant `c`:
numbers compare normally, a list is greater than every number. -/
def py_le : PyVal → ℚ → Bool
  | .num q, c => decide (q ≤ c)
  | .bytes _, _ => false

/-- Python 2 comparison `v >= c` for a numeric constant `c`:
numbers compare normally, a list is greater than every number. -/
def py_ge : PyVal → ℚ → Bool
  | .num q, c => decide (q ≥ c)
  | .bytes _, _ => true

/-- `att_to_hex` (src/scarlettmixer.py lines 259-265): attenuation in dB to
the 2-byte little-endian wire value.  In the final branch the Python code
computes `val = int(math.floor(65536.5 + 256.0 * value))` and returns
`[val & 0xff, val >> 8]`; there `-128 < value < 0`, hence
`val ≥ 32769 > 0` and `Int.toNat` is lossless. -/
def att_to_hex (value : PyVal) : List ℕ :=
  if py_le value (-128) then [0x00, 0x80]
  else if py_ge value 0 then [0x00, 0x00]
  else
    match value with
    | .num q =>
        let val : ℕ := (Rat.floor ((65536.5 : ℚ) + 256 * q)).toNat
        [val &&& 0xff, val >>> 8]
    | .bytes _ => []   -- unreachable: `py_ge` is `true` on lists

/-- `gain_to_hex` (src/scarlettmixer.py lines 270-279): fader gain in dB to
the 2-byte wire value.  `int(math.floor(value + .5))` rounds half up. -/
def gain_to_hex (value : ℚ) : List ℕ :=
  let v : ℤ := Rat.floor (value + 0.5)
  if v ≤ -128 then [0x00, 0x80]
  else if v > 6 then [0x00, 0x06]
  else if v ≥ 0 then [0x00, (0x00 + v).toNat]
  else [0x00, (0x100 + v).toNat]

/-- One USB control request as issued by `ctrl_send(wValue, wIndex, data)`. -/
structure ControlRequest where
  wValue : ℤ
  wIndex : ℕ
  data : List ℕ
deriving DecidableEq, Repr

/-- `ctrl_send` emits exactly one control request. -/
def ctrl_send (wValue : ℤ) (wIndex : ℕ) (data : List ℕ) : List ControlRequest :=
  [⟨wValue, wIndex, data⟩]

namespace impedance

def LINEIN : ℕ := 0

def INSTRUMENT : ℕ := 1

end impedance

namespace mute

def UNMUTE : List ℕ := [0x00, 0x00]

def MUTE : List ℕ := [0x01, 0x00]

end mute

namespace sigsrc

def OFF : ℕ := 0xff

def DAW1 : ℕ := 0x00

def DAW2 : ℕ := 0x01

def ANALG1 : ℕ := 0x06

def SPDIF1 : ℕ := 0x0e

def SPDIF2 : ℕ := 0x0f

def ADAT1 : ℕ := 0x10

end sigsrc

namespace mixbus

def OFF : ℕ := 0xff

def M1 : ℕ := 0x18

def M2 : ℕ := 0x19

end mixbus

namespace sigout

def MASTER : ℤ := 0

def MONITOR_LEFT : ℤ := 1

def MONITOR_RIGHT : ℤ := 2

def PHONES_LEFT : ℤ := 3

def PHONES_RIGHT : ℤ := 4

end sigout

/-- `sw_impedance` (lines 298-299): no range check on the channel. -/
def sw_impedance (chn : ℤ) (mode : ℕ) : List ControlRequest :=
  ctrl_send (0x0901 + chn) 0x0100 [mode, 0x00]

/-- `sw_clocksource` (lines 303-304). -/
def sw_clocksource (src : ℕ) : List ControlRequest :=
  ctrl_send 0x0100 0x2800 [src]

/-- `sw_mute_bus` (lines 312-315). -/
def sw_mute_bus (bus : ℤ) (onoff : List ℕ) : List ControlRequest :=
  if bus < 0 ∨ bus > 4 then []
  else ctrl_send (0x0100 + bus) 0x0a00 onoff

/-- `att_postroute` (lines 320-323).  The gain argument is a `PyVal`
because the `att_out_*` wrappers pass byte lists here. -/
def att_postroute (bus : ℤ) (gain : PyVal) : List ControlRequest :=
  if bus < 0 ∨ bus > 4 then []
  else ctrl_send (0x0200 + bus) 0x0a00 (att_to_hex gain)

/-- `att_out_master` (lines 328-329): note the double conversion,
`att_postroute` applies `att_to_hex` to an already-converted byte list. -/
def att_out_master (gain : ℚ) : List ControlRequest :=
  att_postroute sigout.MASTER (.bytes (att_to_hex (.num gain)))

/-- `att_out_monitor` (lines 334-336). -/
def att_out_monitor (left right : ℚ) : List ControlRequest :=
  att_postroute sigout.MONITOR_LEFT (.bytes (att_to_hex (.num left)))
  ++ att_postroute sigout.MONITOR_RIGHT (.bytes (att_to_hex (.num right)))

/-- `att_out_phones` (lines 341-343). -/
def att_out_phones (left right : ℚ) : List ControlRequest :=
  att_postroute sigout.PHONES_LEFT (.bytes (att_to_hex (.num left)))
  ++ att_postroute sigout.PHONES_RIGHT (.bytes (att_to_hex (.num right)))

/-- `mixer_set_source` (lines 351-354). -/
def mixer_set_source (src : ℕ) (mixin : ℤ) : List ControlRequest :=
  if mixin < 0 ∨ mixin > 0x11 then []
  else ctrl_send (0x0600 + mixin) 0x3200 [src, 0x00]

/-- `mixer_set_gain` (lines 360-366).  After the guards `0 ≤ chn ≤ 17`
and `0 ≤ bus ≤ 5` hold, so `Int.toNat` is lossless in
`mtx = (chn << 3) + (bus & 0x07)`. -/
def mixer_set_gain (chn bus : ℤ) (gain : ℚ) : List ControlRequest :=
  if bus < 0 ∨ bus > 5 then []
  else if chn < 0 ∨ chn > 17 then []
  else
    let mtx : ℕ := (chn.toNat <<< 3) + (bus.toNat &&& 0x07)
    ctrl_send (0x0100 + (mtx : ℤ)) 0x3c00 (gain_to_hex gain)

/-- `bus_set_source` (lines 375-378). -/
def bus_set_source (route : ℤ) (mixout : ℕ) : List ControlRequest :=
  if route < 0 ∨ route > 5 then []
  else ctrl_send route 0x3300 [mixout, 0x00]

/-- `factory_reset` (src/scarlettmixer.py lines 382-428): concatenation of
every control request the procedure emits, in program order. -/
def factory_reset : List ControlRequest :=
  ((List.range 18).flatMap fun i => ctrl_send (0x0000 + (i : ℤ)) 0x3400 [0x06 + i, 0x00])
  ++ bus_set_source 0 mixbus.M1
  ++ bus_set_source 1 mixbus.M2
  ++ bus_set_source 2 mixbus.M1
  ++ bus_set_source 3 mixbus.M2
  ++ bus_set_source 4 mixbus.OFF
  ++ bus_set_source 5 mixbus.OFF
  ++ ((List.range 8).flatMap fun i => mixer_set_source (0x06 + i) (i : ℤ))
  ++ ((List.range 6).flatMap fun i => mixer_set_source (0x10 + i) (8 + (i : ℤ)))
  ++ mixer_set_source 0x0e 0x0e
  ++ mixer_set_source 0x0f 0x0f
  ++ mixer_set_source 0x00 0x10
  ++ mixer_set_source 0x01 0x11
  ++ ((List.range 18).flatMap fun i =>
       (List.range 6).flatMap fun o =>
         mixer_set_gain (i : ℤ) (o : ℤ) (if i % 2 = o then 0 else -200))
  ++ sw_mute_bus sigout.MONITOR_LEFT mute.UNMUTE
  ++ sw_mute_bus sigout.MONITOR_RIGHT mute.UNMUTE
  ++ sw_mute_bus sigout.PHONES_LEFT mute.UNMUTE
  ++ sw_mute_bus sigout.PHONES_RIGHT mute.UNMUTE
  ++ sw_impedance 0 impedance.LINEIN
  ++ sw_impedance 1 impedance.LINEIN
  ++ ctrl_send 0x0803 0x0100 [0x00, 0x00]
  ++ ctrl_send 0x0804 0x0100 [0x00, 0x00]

/-- `zero_settings` (src/scarlettmixer.py lines 430-447): concatenation of
every control request the procedure emits, in program order. -/
def zero_settings : List ControlRequest :=
  ((List.range 18).flatMap fun i =>
    (List.range 6).flatMap fun o => mixer_set_gain (i : ℤ) (o : ℤ) (-200))
  ++ ((List.range 18).flatMap fun i => ctrl_send (0x0000 + (i : ℤ)) 0x3400 [0x06 + i, 0x00])
  ++ ((List.range 6).flatMap fun i => bus_set_source (i : ℤ) mixbus.OFF)
  ++ ((List.range 18).flatMap fun i => mixer_set_source sigsrc.OFF (i : ℤ))
  ++ sw_mute_bus sigout.MONITOR_LEFT mute.UNMUTE
  ++ sw_mute_bus sigout.MONITOR_RIGHT mute.UNMUTE
  ++ sw_mute_bus sigout.PHONES_LEFT mute.UNMUTE
  ++ sw_mute_bus sigout.PHONES_RIGHT mute.UNMUTE

/-- Modelled from the spec: the exact request sequence that claim C8 says
`factoryResetTopology()` emits — 18 clear-assignment requests, router
destinations 0-3 to M1/M2/M1/M2 and 4-5 OFF, matrix inputs 0-7 to analog
1-8, 8-13 to ADAT1-6, 14-15 to S/PDIF1-2, 16-17 to DAW1-2, gains -200 dB
(wire floor 0x0080) except `input % 2 == bus` at 0 dB, the four non-master
buses unmuted, both input channels at line impedance.  The claim stops
here; it does not mention the two trailing 0x0803/0x0804 requests. -/
def factory_reset_spec : List ControlRequest :=
  ((List.range 18).map fun i => ⟨(i : ℤ), 0x3400, [0x06 + i, 0x00]⟩)
  ++ [⟨0, 0x3300, [0x18, 0x00]⟩, ⟨1, 0x3300, [0x19, 0x00]⟩,
      ⟨2, 0x3300, [0x18, 0x00]⟩, ⟨3, 0x3300, [0x19, 0x00]⟩,
      ⟨4, 0x3300, [0xff, 0x00]⟩, ⟨5, 0x3300, [0xff, 0x00]⟩]
  ++ ((List.range 8).map fun i => ⟨0x0600 + (i : ℤ), 0x3200, [0x06 + i, 0x00]⟩)
  ++ ((List.range 6).map fun i => ⟨0x0608 + (i : ℤ), 0x3200, [0x10 + i, 0x00]⟩)
  ++ [⟨0x060e, 0x3200, [0x0e, 0x00]⟩, ⟨0x060f, 0x3200, [0x0f, 0x00]⟩,
      ⟨0x0610, 0x3200, [0x00, 0x00]⟩, ⟨0x0611, 0x3200, [0x01, 0x00]⟩]
  ++ ((List.range 18).flatMap fun i =>
       (List.range 6).map fun o =>
         ⟨0x0100 + (((i <<< 3) + (o &&& 0x07) : ℕ) : ℤ), 0x3c00,
          if i % 2 = o then [0x00, 0x00] else [0x00, 0x80]⟩)
  ++ ((List.range 4).map fun b => ⟨((0x0100 + (1 + b) : ℕ) : ℤ), 0x0a00, [0x00, 0x00]⟩)
  ++ [⟨0x0901, 0x0100, [0x00, 0x00]⟩, ⟨0x0902, 0x0100, [0x00, 0x00]⟩]

/-- Modelled from the spec: the request sequence that claim C9 says
`zeroSettingsTopology()` emits, in the claim's own order — all 108 matrix
gains to the floor sentinel, all 18 matrix inputs assigned OFF, all 6
router destinations assigned OFF, the four non-master buses unmuted.  The
claim mentions no clear-assignment (index 0x3400) requests. -/
def zero_settings_spec : List ControlRequest :=
  ((List.range 18).flatMap fun i =>
    (List.range 6).map fun o =>
      ⟨0x0100 + (((i <<< 3) + (o &&& 0x07) : ℕ) : ℤ), 0x3c00, [0x00, 0x80]⟩)
  ++ ((List.range 18).map fun i => ⟨0x0600 + (i : ℤ), 0x3200, [0xff, 0x00]⟩)
  ++ ((List.range 6).map fun i => ⟨(i : ℤ), 0x3300, [0xff, 0x00]⟩)
  ++ ((List.range 4).map fun b => ⟨((0x0100 + (1 + b) : ℕ) : ℤ), 0x0a00, [0x00, 0x00]⟩)

/-- The request sequence `zero_settings` actually emits, written out as
explicit wire requests in program order: 108 gain-floor requests, then the
18 clear-assignment requests, then the 6 router disconnects, then the 18
matrix-input disconnects, then the 4 unmutes. -/
def zero_settings_amended : List ControlRequest :=
  ((List.range 18).flatMap fun i =>
    (List.range 6).map fun o =>
      ⟨0x0100 + (((i <<< 3) + (o &&& 0x07) : ℕ) : ℤ), 0x3c00, [0x00, 0x80]⟩)
  ++ ((List.range 18).map fun i => ⟨(i : ℤ), 0x3400, [0x06 + i, 0x00]⟩)
  ++ ((List.range 6).map fun i => ⟨(i : ℤ), 0x3300, [0xff, 0x00]⟩)
  ++ ((List.range 18).map fun i => ⟨0x0600 + (i : ℤ), 0x3200, [0xff, 0x00]⟩)
  ++ ((List.range 4).map fun b => ⟨((0x0100 + (1 + b) : ℕ) : ℤ), 0x0a00, [0x00, 0x00]⟩)

/-- `val16_to_db` (src/scarlettmixer.py lines 453-457): a 16-bit peak
magnitude to decibels; 0 maps to negative infinity, otherwise
`20 * math.log(v / 65536.0, 10)`. -/
noncomputable def val16_to_db (v : ℕ) : EReal :=
  if v = 0 then ⊥
  else ((20 * Real.logb 10 ((v : ℝ) / 65536) : ℝ) : EReal)

/-- `twobyte_to_db` (lines 459-460): combine two bytes, high first. -/
noncomputable def twobyte_to_db (hi lo : ℕ) : EReal :=
  val16_to_db (((hi &&& 0xff) <<< 8) + (lo &&& 0xff))

/-- One decoding loop of `query_peak`: after `n` iterations the Python loop
has appended `twobyte_to_db(blk[2*i+1], blk[2*i])` for `i = 0 .. n-1`; an
out-of-range index raises (modelled as `none`).  The high byte
`blk[2*i+1]` is fetched first, as in the source. -/
noncomputable def block_to_db (blk : List ℕ) : ℕ → Option (List EReal)
  | 0 => some []
  | n + 1 => do
      let rest ← block_to_db blk n
      let hi ← blk.get? (2 * n + 1)
      let lo ← blk.get? (2 * n)
      pure (rest ++ [twobyte_to_db hi lo])

/-- The snapshot `query_peak` returns: 18 input, 6 DAW, 8 mixer readings. -/
structure PeakReadings where
  input : List EReal
  daw : List EReal
  mixer : List EReal

/-- `query_peak` (lines 462-477), parametrised by the three raw byte blocks
the transport returns (requested lengths 36, 12 and 16). -/
noncomputable def query_peak (ins daw mix : List ℕ) : Option PeakReadings := do
  let indb ← block_to_db ins 18
  let dawd ← block_to_db daw 6
  let mixd ← block_to_db mix 8
  pure ⟨indb, dawd, mixd⟩

/-- `Rat.floor` agrees with the mathematical floor `Int.floor` on `ℚ`;
used to hand concrete evaluations to `norm_num`. -/
theorem rat_floor_eq_intFloor (q : ℚ) : q.floor = ⌊q⌋ := by
  rw [Rat.floor_def', Rat.floor_def]

/-- C1 counterexample: the claim's deterministic literal is wrong.  The code
computes `floor(65536.5 + 256*(-6)) = floor(64000.5) = 64000 = 0xFA00`,
so `att_to_hex(-6)` is `[0x00, 0xFA]`, not the claimed `[0x41, 0xFA]`
(which would be the bytes of 64065; even the claimed value 64001 would
split as `[0x01, 0xFA]`). -/
theorem c1_att_to_hex_counterexample : att_to_hex (.num (-6)) ≠ [0x41, 0xFA] := by
  simp only [att_to_hex, py_le, py_ge, rat_floor_eq_intFloor]
  norm_num
  decide

/-- C1 (amended): for every db, `att_to_hex` returns `[0x00, 0x00]` when
`db ≥ 0`, the full-attenuation sentinel `[0x00, 0x80]` when `db ≤ -128`,
and otherwise the little-endian byte split of `floor(65536.5 + 256*db)`
(floor, not round); in particular `att_to_hex(-6)` is the byte split of
64000, namely `[0x00, 0xFA]`. -/
theorem c1_att_to_hex_amended : ∀ db : ℚ,
    (0 ≤ db → att_to_hex (.num db) = [0x00, 0x00]) ∧
    (db ≤ -128 → att_to_hex (.num db) = [0x00, 0x80]) ∧
    (-128 < db → db < 0 →
      att_to_hex (.num db) =
        [(Rat.floor ((65536.5 : ℚ) + 256 * db)).toNat &&& 0xff,
         (Rat.floor ((65536.5 : ℚ) + 256 * db)).toNat >>> 8]) ∧
    att_to_hex (.num (-6)) = [0x00, 0xFA] := by
  intro db
  refine ⟨?_, ?_, ?_, ?_⟩
  · intro h
    have h1 : ¬(db ≤ -128) := by linarith
    simp [att_to_hex, py_le, py_ge, h, h1]
  · intro h
    simp [att_to_hex, py_le, h]
  · intro h1 h2
    have p1 : ¬(db ≤ -128) := by linarith
    have p2 : ¬(db ≥ 0) := by linarith
    simp [att_to_hex, py_le, py_ge, p1, p2]
  · simp only [att_to_hex, py_le, py_ge, rat_floor_eq_intFloor]
    norm_num
    all_goals decide

/-- C1 witness: the amended general formula applied at db = -6. -/
theorem c1_att_to_hex_witness :
    att_to_hex (.num (-6)) =
      [(Rat.floor ((65536.5 : ℚ) + 256 * (-6))).toNat &&& 0xff,
       (Rat.floor ((65536.5 : ℚ) + 256 * (-6))).toNat >>> 8] :=
  (c1_att_to_hex_amended (-6)).2.2.1 (by norm_num) (by norm_num)

/-- C2 counterexample: the claim's byte-role prose is swapped.  It says the
wire LOW byte carries the value and the high byte is always 0x00, yet (as
its own examples show) `gain_to_hex 6 = [0x00, 0x06]`: in the little-endian
pair the first (low) byte is 0x00, not 6. -/
theorem c2_gain_to_hex_counterexample :
    gain_to_hex 6 = [0x00, 0x06] ∧ (gain_to_hex 6).getD 0 0xAA ≠ 6 := by
  have h : gain_to_hex 6 = [0x00, 0x06] := by
    simp only [gain_to_hex, rat_floor_eq_intFloor]
    norm_num
    all_goals decide
  exact ⟨h, by rw [h]; decide⟩

/-- C2 (amended): `gain_to_hex` first rounds half-up to an integer; rounded
value ≤ -128 gives the mute sentinel `[0x00, 0x80]`, rounded value > 6
clamps to `[0x00, 0x06]`, rounded value in 0..6 gives the value in the HIGH
(second) byte, negative rounded value in (-128, 0) gives 256 + value in the
high byte, with the LOW (first) byte always 0x00; the four concrete
examples hold as stated. -/
theorem c2_gain_to_hex_amended : ∀ db : ℚ,
    (Rat.floor (db + 0.5) ≤ -128 → gain_to_hex db = [0x00, 0x80]) ∧
    (6 < Rat.floor (db + 0.5) → gain_to_hex db = [0x00, 0x06]) ∧
    (0 ≤ Rat.floor (db + 0.5) → Rat.floor (db + 0.5) ≤ 6 →
      gain_to_hex db = [0x00, (Rat.floor (db + 0.5)).toNat]) ∧
    (-128 < Rat.floor (db + 0.5) → Rat.floor (db + 0.5) < 0 →
      gain_to_hex db = [0x00, (0x100 + Rat.floor (db + 0.5)).toNat]) ∧
    gain_to_hex 6 = [0x00, 0x06] ∧ gain_to_hex 7 = [0x00, 0x06] ∧
    gain_to_hex (-1) = [0x00, 0xFF] ∧ gain_to_hex (-128) = [0x00, 0x80] := by
  intro db
  refine ⟨?_, ?_, ?_, ?_, ?_, ?_, ?_, ?_⟩
  · intro h
    simp only [gain_to_hex]
    rw [if_pos h]
  · intro h
    simp only [gain_to_hex]
    rw [if_neg (by omega), if_pos (by omega)]
  · intro h1 h2
    simp only [gain_to_hex]
    rw [if_neg (by omega), if_neg (by omega), if_pos (by omega), Int.zero_add]
  · intro h1 h2
    simp only [gain_to_hex]
    rw [if_neg (by omega), if_neg (by omega), if_neg (by omega)]
  · simp only [gain_to_hex, rat_floor_eq_intFloor]
    norm_num
    all_goals decide
  · simp only [gain_to_hex, rat_floor_eq_intFloor]
    norm_num
  · simp only [gain_to_hex, rat_floor_eq_intFloor]
    norm_num
    all_goals decide
  · simp only [gain_to_hex, rat_floor_eq_intFloor]
    norm_num

/-- C2 witness: the amended in-range clause applied at db = 3. -/
theorem c2_gain_to_hex_witness :
    gain_to_hex 3 = [0x00, (Rat.floor ((3 : ℚ) + 0.5)).toNat] :=
  (c2_gain_to_hex_amended 3).2.2.1
    (by rw [rat_floor_eq_intFloor]; norm_num)
    (by rw [rat_floor_eq_intFloor]; norm_num)

/-- C3: for every in-range input index 0..17, bus index 0..5 and gain, the
matrix-gain operation emits exactly one request with index 0x3c00, value
`0x0100 + ((inputIndex << 3) + (busIndex & 0x07))` and payload
`gain_to_hex db`; in particular `mixer_set_gain 3 2 0` encodes value
0x011A with the unity payload. -/
theorem c3_mixer_set_gain_encoding :
    (∀ (chn bus : ℤ) (g : ℚ), 0 ≤ chn → chn ≤ 17 → 0 ≤ bus → bus ≤ 5 →
      mixer_set_gain chn bus g =
        [⟨0x0100 + (((chn.toNat <<< 3) + (bus.toNat &&& 0x07) : ℕ) : ℤ),
          0x3c00, gain_to_hex g⟩]) ∧
    mixer_set_gain 3 2 0 = [⟨0x011A, 0x3c00, [0x00, 0x00]⟩] := by
  constructor
  · intro chn bus g h1 h2 h3 h4
    simp only [mixer_set_gain, ctrl_send]
    rw [if_neg (by omega), if_neg (by omega)]
    norm_cast
  · have hg : gain_to_hex 0 = [0x00, 0x00] := by
      simp only [gain_to_hex, rat_floor_eq_intFloor]
      norm_num
    simp only [mixer_set_gain, ctrl_send, hg]
    norm_num
    decide

/-- C3 witness: the encoding equation applied at input 3, bus 2, gain 0. -/
theorem c3_mixer_set_gain_witness :
    mixer_set_gain 3 2 0 =
      [⟨0x0100 + (((Int.toNat 3 <<< 3) + (Int.toNat 2 &&& 0x07) : ℕ) : ℤ),
        0x3c00, gain_to_hex 0⟩] :=
  c3_mixer_set_gain_encoding.1 3 2 0 (by decide) (by decide) (by decide) (by decide)

/-- C4: every out-of-range addressing argument makes the operation a silent
no-op that emits no control request: matrix input index outside 0..17 in
`mixer_set_source`, indices outside 0..17 and 0..5 in `mixer_set_gain`,
router destination outside 0..5 in `bus_set_source`, output bus outside
0..4 in `sw_mute_bus` and `att_postroute`. -/
theorem c4_out_of_range_no_op :
    (∀ (src : ℕ) (mixin : ℤ), mixin < 0 ∨ 17 < mixin →
      mixer_set_source src mixin = []) ∧
    (∀ (chn bus : ℤ) (g : ℚ), chn < 0 ∨ 17 < chn ∨ bus < 0 ∨ 5 < bus →
      mixer_set_gain chn bus g = []) ∧
    (∀ (route : ℤ) (mixout : ℕ), route < 0 ∨ 5 < route →
      bus_set_source route mixout = []) ∧
    (∀ (bus : ℤ) (onoff : List ℕ), bus < 0 ∨ 4 < bus →
      sw_mute_bus bus onoff = []) ∧
    (∀ (bus : ℤ) (g : PyVal), bus < 0 ∨ 4 < bus →
      att_postroute bus g = []) := by
  refine ⟨?_, ?_, ?_, ?_, ?_⟩
  · intro src mixin h
    simp only [mixer_set_source]
    rw [if_pos (by omega)]
  · intro chn bus g h
    simp only [mixer_set_gain]
    by_cases hb : bus < 0 ∨ bus > 5
    · rw [if_pos hb]
    · rw [if_neg hb, if_pos (by omega)]
  · intro route mixout h
    simp only [bus_set_source]
    rw [if_pos (by omega)]
  · intro bus onoff h
    simp only [sw_mute_bus]
    rw [if_pos (by omega)]
  · intro bus g h
    simp only [att_postroute]
    rw [if_pos (by omega)]

/-- C4 witness: `mixer_set_source` at the out-of-range input index 18
emits nothing. -/
theorem c4_out_of_range_witness : mixer_set_source 0 18 = [] :=
  c4_out_of_range_no_op.1 0 18 (by decide)

/-- C5 counterexample: the claim says a channel outside 0..1 emits no
control request, but `sw_impedance` has no range check at all — channel 2
still emits a request (with value 0x0903). -/
theorem c5_sw_impedance_counterexample : sw_impedance 2 0 ≠ [] := by decide

/-- C5 (amended): `sw_impedance` performs no validation: for EVERY channel,
in range or not, it emits exactly one control request with index 0x0100,
value `0x0901 + channel` and payload `[mode, 0x00]`. -/
theorem c5_sw_impedance_amended : ∀ (chn : ℤ) (mode : ℕ),
    sw_impedance chn mode = [⟨0x0901 + chn, 0x0100, [mode, 0x00]⟩] := by
  intro chn mode
  rfl

/-- C10: the wrappers double-convert — `att_postroute` applies `att_to_hex`
to the byte list the wrapper already produced, and under Python 2 ordering
a list is never `<= -128` but always `>= 0`, so the payload is always the
unity value `[0x00, 0x00]`, whatever the decibel arguments were. -/
theorem c10_att_out_always_unity : ∀ (g l r : ℚ),
    att_out_master g = [⟨0x0200, 0x0a00, [0x00, 0x00]⟩] ∧
    att_out_monitor l r =
      [⟨0x0201, 0x0a00, [0x00, 0x00]⟩, ⟨0x0202, 0x0a00, [0x00, 0x00]⟩] ∧
    att_out_phones l r =
      [⟨0x0203, 0x0a00, [0x00, 0x00]⟩, ⟨0x0204, 0x0a00, [0x00, 0x00]⟩] := by
  intro g l r
  refine ⟨rfl, rfl, rfl⟩

/-- The factory floor value: -200 dB rounds to -200 ≤ -128, the sentinel. -/
theorem gain_to_hex_neg200 : gain_to_hex (-200) = [0x00, 0x80] := by
  simp only [gain_to_hex, rat_floor_eq_intFloor]
  norm_num

/-- Unity gain: 0 dB rounds to 0, encoded `[0x00, 0x00]`. -/
theorem gain_to_hex_zero : gain_to_hex 0 = [0x00, 0x00] := by
  simp only [gain_to_hex, rat_floor_eq_intFloor]
  norm_num

theorem list_range_4 : List.range 4 = [0, 1, 2, 3] := rfl

theorem list_range_6 : List.range 6 = [0, 1, 2, 3, 4, 5] := rfl

theorem list_range_8 : List.range 8 = [0, 1, 2, 3, 4, 5, 6, 7] := rfl

theorem list_range_18 :
    List.range 18 = [0, 1, 2, 3, 4, 5, 6, 7, 8, 9, 10, 11, 12, 13, 14, 15, 16, 17] := rfl

/-- Full evaluation of `zero_settings` to literal wire requests. -/
theorem zero_settings_eval : zero_settings = zero_settings_amended := by
  simp only [zero_settings, zero_settings_amended, list_range_18, list_range_6, list_range_4,
    List.flatMap_cons, List.flatMap_nil, List.map_cons, List.map_nil,
    mixer_set_gain, mixer_set_source, bus_set_source, sw_mute_bus, ctrl_send,
    gain_to_hex_neg200, sigsrc.OFF, mixbus.OFF, mute.UNMUTE,
    sigout.MONITOR_LEFT, sigout.MONITOR_RIGHT, sigout.PHONES_LEFT, sigout.PHONES_RIGHT,
    Nat.cast_ofNat, Nat.cast_zero, Nat.cast_one, Int.toNat_natCast,
    List.append_assoc, List.cons_append, List.nil_append, List.append_nil]
  norm_num

/-- Full evaluation of `factory_reset`: it emits exactly the claimed
sequence plus two extra trailing requests 0x0803/0x0804. -/
theorem factory_reset_eval :
    factory_reset = factory_reset_spec
      ++ ctrl_send 0x0803 0x0100 [0x00, 0x00]
      ++ ctrl_send 0x0804 0x0100 [0x00, 0x00] := by
  simp only [factory_reset, factory_reset_spec, list_range_18, list_range_8, list_range_6,
    list_range_4, List.flatMap_cons, List.flatMap_nil, List.map_cons, List.map_nil,
    mixer_set_gain, mixer_set_source, bus_set_source, sw_mute_bus, sw_impedance, ctrl_send,
    gain_to_hex_neg200, gain_to_hex_zero, sigsrc.OFF, mixbus.OFF, mixbus.M1, mixbus.M2,
    mute.UNMUTE, impedance.LINEIN,
    sigout.MONITOR_LEFT, sigout.MONITOR_RIGHT, sigout.PHONES_LEFT, sigout.PHONES_RIGHT,
    Nat.cast_ofNat, Nat.cast_zero, Nat.cast_one, Int.toNat_natCast,
    List.append_assoc, List.cons_append, List.nil_append, List.append_nil]
  norm_num [gain_to_hex_zero, gain_to_hex_neg200]

/-- C8 counterexample: `factory_reset` does not emit exactly the claimed
sequence — after the impedance requests it sends two further requests
(values 0x0803 and 0x0804, index 0x0100, payload `[0x00, 0x00]`) which the
claim's enumeration does not contain. -/
theorem c8_factory_reset_counterexample : factory_reset ≠ factory_reset_spec := by
  rw [factory_reset_eval]
  decide

/-- C8 (amended): `factory_reset` emits, in this order, exactly the claimed
sequence — 18 clear-assignment requests, router assignments M1/M2/M1/M2/OFF/OFF,
the 18 matrix-input assignments, the 108 gains (-200 dB floor except the
`input % 2 == bus` diagonal at 0 dB), the four non-master unmutes, both
impedance switches to line level — followed by two additional undocumented
requests with values 0x0803 and 0x0804, index 0x0100, payload `[0x00, 0x00]`. -/
theorem c8_factory_reset_amended :
    factory_reset = factory_reset_spec
      ++ ctrl_send 0x0803 0x0100 [0x00, 0x00]
      ++ ctrl_send 0x0804 0x0100 [0x00, 0x00] :=
  factory_reset_eval

/-- C9 counterexample: `zero_settings` does not emit the claimed request
set — beyond the claimed requests it also issues the 18 clear-assignment
(index 0x3400) requests, and it disconnects the router destinations before
the matrix inputs, not after. -/
theorem c9_zero_settings_counterexample : zero_settings ≠ zero_settings_spec := by
  rw [zero_settings_eval]
  decide

/-- C9 (amended): `zero_settings` emits, in program order, the 108
gain-floor requests, then the 18 clear-assignment requests (index 0x3400),
then the 6 router disconnects (OFF), then the 18 matrix-input disconnects
(OFF), then the four non-master unmutes. -/
theorem c9_zero_settings_amended_holds : zero_settings = zero_settings_amended :=
  zero_settings_eval

/-- Joining disjoint bit ranges: `or` coincides with addition when the low
summand fits below the shift. -/
theorem shiftLeft_lor_eq_add : ∀ (k a b : ℕ), b < 2 ^ k → (a <<< k) ||| b = a <<< k + b := by
  intro k
  induction k with
  | zero =>
      intro a b hb
      interval_cases b
      simp
  | succ k ih =>
      intro a b hb
      have hb2 : b / 2 < 2 ^ k := by omega
      have hdecomp := Nat.bit_decomp b
      calc (a <<< (k + 1)) ||| b
          = (Nat.bit false (a <<< k)) ||| (Nat.bit b.bodd b.div2) := by
            rw [hdecomp]
            congr 1
            rw [Nat.bit_val, Nat.shiftLeft_succ]
            simp [Nat.mul_comm]
        _ = Nat.bit (false || b.bodd) ((a <<< k) ||| b.div2) :=
            Nat.lor_bit false (a <<< k) b.bodd b.div2
        _ = Nat.bit b.bodd (a <<< k + b / 2) := by
            rw [Bool.false_or, Nat.div2_val, ih a (b / 2) hb2]
        _ = a <<< (k + 1) + b := by
            rw [Nat.bit_val, Nat.shiftLeft_succ]
            have hbv : 2 * (b / 2) + b.bodd.toNat = b := by
              have hd := Nat.bit_decomp b
              rw [Nat.bit_val, Nat.div2_val] at hd
              omega
            omega

/-- A byte below 256 is unchanged by the `&&& 0xff` mask. -/
theorem byte_and_mask {x : ℕ} (h : x < 256) : x &&& 0xff = x := by
  rw [show (0xff : ℕ) = 2 ^ 8 - 1 from rfl, Nat.and_pow_two_sub_one_eq_mod,
    Nat.mod_eq_of_lt h]

/-- When `block_to_db` succeeds after `n` loop iterations it has decoded
exactly `n` readings. -/
theorem block_to_db_length (blk : List ℕ) :
    ∀ (n : ℕ) (l : List EReal), block_to_db blk n = some l → l.length = n := by
  intro n
  induction n with
  | zero =>
      intro l h
      simp only [block_to_db, Option.some.injEq] at h
      simp [← h]
  | succ n ih =>
      intro l h
      simp only [block_to_db, Option.bind_eq_bind, Option.bind_eq_some, Option.pure_def,
        Option.some.injEq] at h
      obtain ⟨rest, hrest, hi, hhi, lo, hlo, rfl⟩ := h
      simp [ih rest hrest]

/-- `block_to_db` fails exactly when the block is shorter than two bytes
per decoded channel. -/
theorem block_to_db_none_iff (blk : List ℕ) :
    ∀ n : ℕ, (block_to_db blk n = none ↔ blk.length < 2 * n) := by
  intro n
  induction n with
  | zero => simp [block_to_db]
  | succ n ih =>
      rcases hb : block_to_db blk n with _ | rest
      · have hlt := ih.mp hb
        simp only [block_to_db, hb, Option.bind_eq_bind, Option.none_bind]
        constructor
        · intro _; omega
        · intro _; trivial
      · have hge : ¬ blk.length < 2 * n := fun hc => by
          rw [ih.mpr hc] at hb
          exact Option.noConfusion hb
        rcases h1 : blk.get? (2 * n + 1) with _ | hi
        · have hle : blk.length ≤ 2 * n + 1 := List.get?_eq_none.mp h1
          simp only [block_to_db, hb, Option.bind_eq_bind, Option.some_bind, h1,
            Option.none_bind]
          constructor
          · intro _; omega
          · intro _; trivial
        · have hlt1 : 2 * n + 1 < blk.length := by
            by_contra hc
            rw [List.get?_eq_none.mpr (by omega)] at h1
            exact Option.noConfusion h1
          rcases h2 : blk.get? (2 * n) with _ | lo
          · have hle : blk.length ≤ 2 * n := List.get?_eq_none.mp h2
            omega
          · simp only [block_to_db, hb, Option.some_bind, h1, h2, Option.pure_def]
            constructor
            · intro hcon
              exact Option.noConfusion hcon
            · intro hcon
              omega

/-- C6: meter decoding — each channel's two wire bytes, delivered in
(low, high) order, are combined as `(high << 8) | low`; magnitude 0 decodes
to negative infinity, any nonzero magnitude v to `20 * log10(v / 65536)`,
so 65536 decodes to 0; and a successful snapshot holds 18 input, 6 DAW and
8 mixer-bus readings. -/
theorem c6_meter_decoding :
    val16_to_db 0 = ⊥ ∧
    (∀ v : ℕ, v ≠ 0 →
      val16_to_db v = ((20 * Real.logb 10 ((v : ℝ) / 65536) : ℝ) : EReal)) ∧
    val16_to_db 65536 = ((0 : ℝ) : EReal) ∧
    (∀ hi lo : ℕ, hi < 256 → lo < 256 →
      twobyte_to_db hi lo = val16_to_db ((hi <<< 8) ||| lo)) ∧
    (∀ (ins daw mix : List ℕ) (r : PeakReadings), query_peak ins daw mix = some r →
      r.input.length = 18 ∧ r.daw.length = 6 ∧ r.mixer.length = 8) := by
  refine ⟨by simp [val16_to_db], ?_, ?_, ?_, ?_⟩
  · intro v hv
    simp [val16_to_db, hv]
  · simp only [val16_to_db]
    norm_num [Real.logb_one]
  · intro hi lo h1 h2
    rw [twobyte_to_db, byte_and_mask h1, byte_and_mask h2,
      shiftLeft_lor_eq_add 8 hi lo (by omega)]
  · intro ins daw mix r h
    simp only [query_peak, Option.bind_eq_bind, Option.bind_eq_some, Option.pure_def,
      Option.some.injEq] at h
    obtain ⟨i1, hi1, d1, hd1, m1, hm1, rfl⟩ := h
    exact ⟨block_to_db_length ins 18 i1 hi1, block_to_db_length daw 6 d1 hd1,
      block_to_db_length mix 8 m1 hm1⟩

/-- C6 witness: the general clauses applied at concrete inputs — the
nonzero formula at v = 1, the byte combination at (1, 2), and the snapshot
lengths on all-zero blocks of the transport-request sizes 36, 12, 16. -/
theorem c6_meter_decoding_witness :
    val16_to_db 1 = ((20 * Real.logb 10 ((1 : ℝ) / 65536) : ℝ) : EReal) ∧
    twobyte_to_db 1 2 = val16_to_db ((1 <<< 8) ||| 2) ∧
    ((⟨List.replicate 18 ⊥, List.replicate 6 ⊥, List.replicate 8 ⊥⟩ :
        PeakReadings).input.length = 18 ∧
      (⟨List.replicate 18 ⊥, List.replicate 6 ⊥, List.replicate 8 ⊥⟩ :
        PeakReadings).daw.length = 6 ∧
      (⟨List.replicate 18 ⊥, List.replicate 6 ⊥, List.replicate 8 ⊥⟩ :
        PeakReadings).mixer.length = 8) :=
  ⟨by simpa using c6_meter_decoding.2.1 1 (by decide),
   c6_meter_decoding.2.2.2.1 1 2 (by decide) (by decide),
   c6_meter_decoding.2.2.2.2 (List.replicate 36 0) (List.replicate 12 0)
     (List.replicate 16 0)
     ⟨List.replicate 18 ⊥, List.replicate 6 ⊥, List.replicate 8 ⊥⟩ rfl⟩

/-- C7: with blocks no longer than the transport request sizes (a USB
control read returns at most the requested 36, 12 and 16 bytes), decoding
fails exactly when some block's length differs from its channel count
times 2; in particular a 35-byte input block makes `query_peak` fail. -/
theorem c7_meter_block_length_check :
    ∀ ins daw mix : List ℕ, ins.length ≤ 36 → daw.length ≤ 12 → mix.length ≤ 16 →
      (query_peak ins daw mix = none ↔
        (ins.length ≠ 36 ∨ daw.length ≠ 12 ∨ mix.length ≠ 16)) := by
  intro ins daw mix h1 h2 h3
  rcases hi : block_to_db ins 18 with _ | i1
  · have hl := (block_to_db_none_iff ins 18).mp hi
    simp only [query_peak, Option.bind_eq_bind, hi, Option.none_bind]
    constructor
    · intro _; omega
    · intro _; trivial
  · have hni : ¬ ins.length < 36 := fun hc => by
      rw [(block_to_db_none_iff ins 18).mpr (by omega)] at hi
      exact Option.noConfusion hi
    rcases hd : block_to_db daw 6 with _ | d1
    · have hl := (block_to_db_none_iff daw 6).mp hd
      simp only [query_peak, Option.bind_eq_bind, hi, Option.some_bind, hd, Option.none_bind]
      constructor
      · intro _; omega
      · intro _; trivial
    · have hnd : ¬ daw.length < 12 := fun hc => by
        rw [(block_to_db_none_iff daw 6).mpr (by omega)] at hd
        exact Option.noConfusion hd
      rcases hm : block_to_db mix 8 with _ | m1
      · have hl := (block_to_db_none_iff mix 8).mp hm
        simp only [query_peak, Option.bind_eq_bind, hi, hd, Option.some_bind, hm,
          Option.none_bind]
        constructor
        · intro _; omega
        · intro _; trivial
      · have hnm : ¬ mix.length < 16 := fun hc => by
          rw [(block_to_db_none_iff mix 8).mpr (by omega)] at hm
          exact Option.noConfusion hm
        simp only [query_peak, Option.bind_eq_bind, hi, hd, hm, Option.some_bind,
          Option.pure_def]
        constructor
        · intro hcon
          exact Option.noConfusion hcon
        · intro hcon
          omega

/-- C7 witness: a 35-byte input block (with well-sized DAW and mixer
blocks) makes the decoder fail. -/
theorem c7_meter_block_length_witness :
    query_peak (List.replicate 35 0) (List.replicate 12 0) (List.replicate 16 0) = none :=
  (c7_meter_block_length_check (List.replicate 35 0) (List.replicate 12 0)
    (List.replicate 16 0) (by simp) (by simp) (by simp)).mpr (by simp)
